import Mathlib

/-
Verification development for the Quote-master quote/invoice application.

The development shallowly embeds the three core pieces of the program:

  * the entitlement gate over per-user subscription state
    (server/routes.ts: requireSubscriptionOrFreeTrial, GET /api/check-pdf-access,
    POST /api/track-pdf-download, PUT /api/admin/users/:id, and the storage
    operations incrementFreeDownloads / updateUser / updateSubscriptionStatus);
  * the pricing engine over lists of line items
    (client QuoteSummary and ItemsList components: addItem, removeItem,
    updateItem, and the subtotal / discountAmount / total computation);
  * the document renderer template selection and items table
    (generateQuotePDF, getTemplateColors, generateHTMLTemplate).

Database rows become Lean structures, route handlers become pure functions
from the looked-up state to a response value paired with the updated state,
and the fallible user lookup becomes an Except value so that the catch
branches of the handlers can be modelled.  JavaScript numbers are embedded
as Rat for prices and money and as Int for the quantity fields that the UI
produces with parseInt.
-/

namespace QuoteMaster

/-! ### String helpers

The gate compares roles with JavaScript toLowerCase; roles are plain ASCII
words, so lowercasing is embedded as ASCII lowercasing.  The catch branches
test error messages with JavaScript String.prototype.includes, embedded as
substring containment on character lists. -/

def lowerChar (c : Char) : Char :=
  if c.toNat ≥ 65 ∧ c.toNat ≤ 90 then Char.ofNat (c.toNat + 32) else c

def toLowerStr (s : String) : String :=
  String.mk (s.toList.map lowerChar)

def containsSubstr (s pat : String) : Bool :=
  decide (pat.toList <:+: s.toList)

/-! ### User records and storage operations (server/storage.ts) -/

/-- A user row, restricted to the fields the entitlement gate reads:
role, hasActiveSubscription and freeDownloadsUsed (users table). -/
structure UserRec where
  role : String
  hasActiveSubscription : Bool
  freeDownloadsUsed : Nat
deriving DecidableEq, Repr

/-- DatabaseStorage.incrementFreeDownloads: a single-row update setting
freeDownloadsUsed to freeDownloadsUsed + 1. -/
def incrementFreeDownloads (u : UserRec) : UserRec :=
  { u with freeDownloadsUsed := u.freeDownloadsUsed + 1 }

/-- DatabaseStorage.updateSubscriptionStatus: sets hasActiveSubscription. -/
def updateSubscriptionStatus (u : UserRec) (active : Bool) : UserRec :=
  { u with hasActiveSubscription := active }

/-- A partial update of a user row, as sent to DatabaseStorage.updateUser by
PUT /api/admin/users/:id (the route only strips id, createdAt, updatedAt
from the request body; every other field may appear). -/
structure UserUpdate where
  role : Option String
  hasActiveSubscription : Option Bool
  freeDownloadsUsed : Option Nat
deriving DecidableEq, Repr

/-- DatabaseStorage.updateUser: set exactly the supplied fields. -/
def updateUser (u : UserRec) (d : UserUpdate) : UserRec :=
  { role := d.role.getD u.role
    hasActiveSubscription := d.hasActiveSubscription.getD u.hasActiveSubscription
    freeDownloadsUsed := d.freeDownloadsUsed.getD u.freeDownloadsUsed }

/-! ### The entitlement gate (server/routes.ts) -/

/-- The admin test of requireSubscriptionOrFreeTrial and of
GET /api/check-pdf-access: (user.role or empty).toLowerCase() === admin. -/
def isAdminRole (u : UserRec) : Bool :=
  toLowerStr u.role == "admin"

/-- The admin test used by the quote-ownership checks and the admin routes:
user?.role !== admin, i.e. an exact, case-sensitive comparison, false when
the user lookup returned nothing. -/
def roleIsAdminExact (user : Option UserRec) : Bool :=
  match user with
  | some x => x.role == "admin"
  | none => false

/-- Outcome of the requireSubscriptionOrFreeTrial middleware.  allow stands
for calling next(), subscriptionRequired for the 402 response that carries
code SUBSCRIPTION_REQUIRED and the current freeDownloadsUsed count,
serverError for the 500 response of the catch branch. -/
inductive GateDecision where
  | notFound
  | allow
  | subscriptionRequired (freeDownloadsUsed : Nat)
  | serverError
deriving DecidableEq, Repr

/-- requireSubscriptionOrFreeTrial (server/routes.ts lines 18 to 58).  The
argument is the result of storage.getUser: an error message when the lookup
threw, otherwise the optional user row. -/
def requireSubscriptionOrFreeTrial (lookup : Except String (Option UserRec)) :
    GateDecision :=
  match lookup with
  | .error msg =>
      if containsSubstr msg "DATABASE_URL is not set" then .allow
      else .serverError
  | .ok none => .notFound
  | .ok (some user) =>
      if isAdminRole user then .allow
      else if user.hasActiveSubscription then .allow
      else if user.freeDownloadsUsed == 0 then .allow
      else .subscriptionRequired user.freeDownloadsUsed

/-- JSON body of a successful GET /api/check-pdf-access response. -/
structure AccessBody where
  canGenerate : Bool
  hasActiveSubscription : Bool
  freeDownloadsUsed : Nat
  isFreeTrial : Bool
deriving DecidableEq, Repr

inductive AccessResult where
  | notFound
  | serverError
  | ok (body : AccessBody)
deriving DecidableEq, Repr

/-- GET /api/check-pdf-access (server/routes.ts lines 441 to 472). -/
def checkPdfAccess (lookup : Except String (Option UserRec)) : AccessResult :=
  match lookup with
  | .error msg =>
      if containsSubstr msg "DATABASE_URL is not set" then
        .ok ⟨true, true, 0, false⟩
      else .serverError
  | .ok none => .notFound
  | .ok (some user) =>
      if isAdminRole user then .ok ⟨true, true, 0, false⟩
      else
        .ok ⟨user.hasActiveSubscription || user.freeDownloadsUsed == 0,
             user.hasActiveSubscription,
             user.freeDownloadsUsed,
             user.freeDownloadsUsed == 0 && !user.hasActiveSubscription⟩

/-- Outcome of POST /api/track-pdf-download: either one of the gate
refusals, or the success body whose freeDownloadsUsed field reports the
count as the handler writes it into the response. -/
inductive TrackOutcome where
  | notFound
  | subscriptionRequired (freeDownloadsUsed : Nat)
  | serverError
  | success (message : String) (freeDownloadsUsed : Nat)
deriving DecidableEq, Repr

def TrackOutcome.isPermitted : TrackOutcome → Bool
  | .success _ _ => true
  | _ => false

/-- POST /api/track-pdf-download (server/routes.ts lines 475 to 503)
composed with its requireSubscriptionOrFreeTrial middleware, acting on the
row of the requesting user (both lookups succeed and see the same row).
Returns the response together with the user row after the request. -/
def trackPdfDownload (u : UserRec) : TrackOutcome × UserRec :=
  match requireSubscriptionOrFreeTrial (.ok (some u)) with
  | .notFound => (.notFound, u)
  | .subscriptionRequired n => (.subscriptionRequired n, u)
  | .serverError => (.serverError, u)
  | .allow =>
      if !u.hasActiveSubscription && u.freeDownloadsUsed == 0 then
        (.success "Free trial used. Subscribe to continue generating PDFs." 1,
         incrementFreeDownloads u)
      else
        (.success "PDF generated successfully" u.freeDownloadsUsed, u)

/-- Result of PUT /api/admin/users/:id. -/
inductive AdminUpdateResult where
  | forbidden
  | ok (updated : UserRec)
deriving DecidableEq, Repr

/-- PUT /api/admin/users/:id (server/routes.ts lines 419 to 438): requires
the requester role to be exactly admin and then applies the request body to
the target row through storage.updateUser. -/
def adminUpdateUser (requester : Option UserRec) (target : UserRec)
    (data : UserUpdate) : AdminUpdateResult :=
  if roleIsAdminExact requester then .ok (updateUser target data)
  else .forbidden

/-- A quote row, restricted to the ownership field the access checks read. -/
structure QuoteRec where
  createdBy : String
deriving DecidableEq, Repr

inductive QuoteAccess where
  | notFound
  | forbidden
  | ok
deriving DecidableEq, Repr

/-- Ownership check of GET /api/quotes/:id (server/routes.ts lines 178 to
197): 404 when the quote is missing, 403 when the requester role is not
exactly admin and the quote was not created by the requester email. -/
def getQuoteById (quote : Option QuoteRec) (user : Option UserRec)
    (requesterEmail : String) : QuoteAccess :=
  match quote with
  | none => .notFound
  | some q =>
      if !roleIsAdminExact user && q.createdBy != requesterEmail then
        .forbidden
      else .ok

/-! ### Line items and the item-editing operations
(client/src/components/QuoteSummary.tsx, ItemsList component) -/

/-- A line item as the editor keeps it: the snake_case field names follow
the client component.  unit_price is a decimal (parseFloat), the quantity
fields are integers (parseInt), buy_quantity and total are the derived
fields the editor recomputes. -/
structure QuoteItem where
  description : String
  unit_price : ℚ
  needed_quantity : ℤ
  owned_quantity : ℤ
  buy_quantity : ℤ
  total : ℚ
deriving DecidableEq, Repr

/-- The fresh item appended by addItem. -/
def newQuoteItem : QuoteItem :=
  { description := ""
    unit_price := 0
    needed_quantity := 1
    owned_quantity := 0
    buy_quantity := 1
    total := 0 }

/-- ItemsList.addItem: append the fresh item. -/
def addItem (items : List QuoteItem) : List QuoteItem :=
  items ++ [newQuoteItem]

/-- ItemsList.removeItem: drop the item at the given index. -/
def removeItem (items : List QuoteItem) (i : ℕ) : List QuoteItem :=
  items.eraseIdx i

/-- One field edit as updateItem receives it: the field name string together
with the coerced value the input handler passes. -/
inductive ItemEdit where
  | setDescription (v : String)
  | setUnitPrice (v : ℚ)
  | setNeededQuantity (v : ℤ)
  | setOwnedQuantity (v : ℤ)
deriving DecidableEq, Repr

/-- Writing the edited field into the item (the spread-update step of
updateItem). -/
def applyEdit (e : ItemEdit) (it : QuoteItem) : QuoteItem :=
  match e with
  | .setDescription v => { it with description := v }
  | .setUnitPrice v => { it with unit_price := v }
  | .setNeededQuantity v => { it with needed_quantity := v }
  | .setOwnedQuantity v => { it with owned_quantity := v }

/-- updateItem recomputes the derived fields exactly for the price and
quantity fields, not for description edits. -/
def editRecomputes : ItemEdit → Bool
  | .setDescription _ => false
  | .setUnitPrice _ => true
  | .setNeededQuantity _ => true
  | .setOwnedQuantity _ => true

/-- The recomputation block of updateItem: buy_quantity becomes
max(0, needed_quantity - owned_quantity) and total becomes
buy_quantity * unit_price. -/
def recomputeDerived (it : QuoteItem) : QuoteItem :=
  let buyQty : ℤ := max 0 (it.needed_quantity - it.owned_quantity)
  { it with buy_quantity := buyQty, total := (buyQty : ℚ) * it.unit_price }

/-- ItemsList.updateItem (QuoteSummary.tsx lines 133 to 148): write the
edited field at the index, then recompute the derived fields there when the
edited field is unit_price, needed_quantity or owned_quantity.  An index
outside the list leaves the list unchanged. -/
def updateItem (items : List QuoteItem) (i : ℕ) (e : ItemEdit) :
    List QuoteItem :=
  let items1 := items.modify (applyEdit e) i
  if editRecomputes e then items1.modify recomputeDerived i else items1

/-- The item lists the editing UI can ever hold: everything reachable from
the empty list through addItem, removeItem and updateItem. -/
inductive ReachableItems : List QuoteItem → Prop where
  | nil : ReachableItems []
  | add {l} : ReachableItems l → ReachableItems (addItem l)
  | remove {l} (i : ℕ) : ReachableItems l → ReachableItems (removeItem l i)
  | update {l} (i : ℕ) (e : ItemEdit) :
      ReachableItems l → ReachableItems (updateItem l i e)

/-! ### The pricing engine
(QuoteSummary.tsx lines 19 to 21; the same three lines appear in
generateQuotePDF, part_005 lines 969 to 971) -/

/-- subtotal: items.reduce((sum, item) => sum + (item.total or 0), 0). -/
def subtotal (items : List QuoteItem) : ℚ :=
  items.foldl (fun sum it => sum + it.total) 0

/-- discountAmount = (subtotal * discount) / 100, with no clamping of the
discount. -/
def discountAmount (items : List QuoteItem) (discount : ℚ) : ℚ :=
  subtotal items * discount / 100

/-- total = subtotal - discountAmount. -/
def total (items : List QuoteItem) (discount : ℚ) : ℚ :=
  subtotal items - discountAmount items discount

/-- Modelled from the spec: clamp(discountPercent, 0, 100), the clamping the
spec prescribes for the discount in section 4.1; the source has no such
clamping, this definition exists to compare the two. -/
def clampQ (x lo hi : ℚ) : ℚ :=
  max lo (min x hi)

/-- Modelled from the spec: discountAmount = subtotal * clamp(discount, 0,
100) / 100 as section 4.1 words it, for comparison with discountAmount. -/
def discountAmountClamped (items : List QuoteItem) (discount : ℚ) : ℚ :=
  subtotal items * clampQ discount 0 100 / 100

/-! ### The document renderer (part_005: getTemplateColors,
generateHTMLTemplate, generateQuotePDF) -/

/-- Palette returned by getTemplateColors.  The text and text_alt entries
exist only on the dark variant_c object in the source, hence Option. -/
structure TemplateColors where
  main : String
  dark : String
  light : String
  bg : String
  bg_grad : String
  header_grad : String
  text : Option String
  text_alt : Option String
deriving DecidableEq, Repr

/-- getTemplateColors (part_005 lines 1005 to 1018): a switch over the
variant string whose default branch is the classic palette. -/
def getTemplateColors (variant : String) : TemplateColors :=
  if variant = "variant_b" then
    { main := "#7c3aed", dark := "#6b21a8", light := "#e9d5ff",
      bg := "#faf5ff",
      bg_grad := "linear-gradient(135deg, #faf5ff 0%, #f3e8ff 100%)",
      header_grad := "linear-gradient(135deg, #7c3aed 0%, #8b5cf6 100%)",
      text := none, text_alt := none }
  else if variant = "variant_c" then
    { main := "#c59d5f", dark := "#2d3748", light := "#4a5568",
      bg := "#2d3748", bg_grad := "#2d3748",
      header_grad := "linear-gradient(135deg, #4a5568 0%, #2d3748 100%)",
      text := some "#f7fafc", text_alt := some "#a0aec0" }
  else if variant = "variant_d" then
    { main := "#047857", dark := "#065f46", light := "#d1fae5",
      bg := "#f0fdf4",
      bg_grad := "linear-gradient(135deg, #f0fdf4 0%, #d1fae5 100%)",
      header_grad := "linear-gradient(135deg, #059669 0%, #10b981 100%)",
      text := none, text_alt := none }
  else if variant = "variant_e" then
    { main := "#f97316", dark := "#1f2937", light := "#e5e7eb",
      bg := "#f9fafb", bg_grad := "#f9fafb", header_grad := "#1f2937",
      text := none, text_alt := none }
  else
    { main := "#2563eb", dark := "#1e40af", light := "#e0e7ff",
      bg := "#eff6ff",
      bg_grad := "linear-gradient(135deg, #eff6ff 0%, #dbeafe 100%)",
      header_grad := "linear-gradient(135deg, #2563eb 0%, #3b82f6 100%)",
      text := none, text_alt := none }

/-- Digit character for a decimal digit. -/
def digitChar (d : ℕ) : Char :=
  Char.ofNat (48 + d % 10)

/-- Little-endian decimal digits of a number, as characters. -/
def revDigits : ℕ → List Char
  | 0 => []
  | n + 1 => digitChar ((n + 1) % 10) :: revDigits ((n + 1) / 10)
decreasing_by exact Nat.div_lt_self (Nat.succ_pos n) (by norm_num)

/-- Insert the pt-BR thousands separator into a little-endian digit list. -/
def groupThreesRev : List Char → List Char
  | d1 :: d2 :: d3 :: d4 :: rest =>
      d1 :: d2 :: d3 :: '.' :: groupThreesRev (d4 :: rest)
  | l => l

def natGrouped (n : ℕ) : String :=
  if n = 0 then "0" else String.mk (groupThreesRev (revDigits n)).reverse

def twoDigits (n : ℕ) : String :=
  String.mk [digitChar (n / 10 % 10), digitChar (n % 10)]

/-- Monetary formatting of the templates: toLocaleString with pt-BR locale
and two fraction digits, embedded as fixed two-decimal pt-BR formatting
(comma decimal separator, dot thousands separator, round half up on the
cent).  The spec calls this a presentation policy; no claim depends on the
digits, only on which rows and blocks exist. -/
def fmtBRL (q : ℚ) : String :=
  let cents : ℤ := round (q * 100)
  let sign := if cents < 0 then "-" else ""
  let a := cents.natAbs
  sign ++ natGrouped (a / 100) ++ "," ++ twoDigits (a % 100)

/-- The per-line savings annotation of the items table (part_005 lines 1224
and 1234): shown exactly when owned_quantity * unit_price is positive. -/
def savingsNote (it : QuoteItem) : String :=
  let economia : ℚ := (it.owned_quantity : ℚ) * it.unit_price
  if 0 < economia then
    "<br><small style=\"color: #6b7280;\">Economia: R$ " ++
      fmtBRL economia ++ "</small>"
  else ""

/-- One row of the items table of generateHTMLTemplate (part_005 lines 1225
to 1236). -/
def renderItemRow (it : QuoteItem) : String :=
  "<tr><td class=\"item-desc\">" ++ it.description ++
  "</td><td class=\"text-right\">R$ " ++ fmtBRL it.unit_price ++
  "</td><td class=\"text-right\">" ++ toString it.needed_quantity ++
  "</td><td class=\"text-right\" style=\"color: #f97316; font-weight: 600;\">" ++
  toString it.owned_quantity ++
  "</td><td class=\"text-right\" style=\"color: #2563eb; font-weight: 600;\">" ++
  toString it.buy_quantity ++
  "</td><td class=\"text-right font-semibold text-green-600\">R$ " ++
  fmtBRL it.total ++ savingsNote it ++
  "</td></tr>"

/-- The rows of the items table body of generateHTMLTemplate:
quote.items.map(...), one row per item and nothing else. -/
def rendererItemsRows (items : List QuoteItem) : List String :=
  items.map renderItemRow

/-- The joined table body string: quote.items.map(...).join(empty). -/
def rendererItemsTbody (items : List QuoteItem) : String :=
  String.join (rendererItemsRows items)

/-- Placeholder text of the editing UI items table (QuoteSummary.tsx lines
186 to 191). -/
def itemsListPlaceholderText : String :=
  "Nenhum item adicionado. Clique em \"Adicionar Item\" para começar."

/-- A row of the editing UI items table, abstracted from JSX: either the
placeholder row or one editable row per item. -/
inductive UiRow where
  | placeholder (text : String)
  | itemRow (it : QuoteItem)
deriving DecidableEq, Repr

/-- Body of the editing UI items table: the placeholder row exactly when
the list is empty, else one row per item. -/
def itemsListBody (items : List QuoteItem) : List UiRow :=
  if items.length = 0 then [.placeholder itemsListPlaceholderText]
  else items.map UiRow.itemRow

/-! ### Shared concrete inputs and the derived-field invariant -/

/-- Derived-field invariant of a line item: buy_quantity and total agree
with the recomputation that updateItem performs. -/
def GoodItem (it : QuoteItem) : Prop :=
  it.buy_quantity = max 0 (it.needed_quantity - it.owned_quantity) ∧
  it.total = (it.buy_quantity : ℚ) * it.unit_price

/-- The single editing step updateItem performs at the touched index. -/
def editStep (e : ItemEdit) (it : QuoteItem) : QuoteItem :=
  if editRecomputes e then recomputeDerived (applyEdit e it)
  else applyEdit e it

/-- The item list of the worked example of the spec, produced by the
editing operations themselves: one item, price 100, needed 5, owned 2. -/
def demoItems : List QuoteItem :=
  updateItem
    (updateItem
      (updateItem (addItem []) 0 (.setUnitPrice 100))
      0 (.setNeededQuantity 5))
    0 (.setOwnedQuantity 2)

/-- A fresh non-admin user: no subscription, no free download used yet. -/
def freshUser : UserRec :=
  { role := "user", hasActiveSubscription := false, freeDownloadsUsed := 0 }

/-! ### Helper lemmas -/

theorem goodItem_newQuoteItem : GoodItem newQuoteItem := by
  constructor <;> simp [newQuoteItem]

theorem goodItem_recomputeDerived (it : QuoteItem) :
    GoodItem (recomputeDerived it) := by
  constructor <;> simp [recomputeDerived]

theorem goodItem_editStep (e : ItemEdit) {it : QuoteItem} (h : GoodItem it) :
    GoodItem (editStep e it) := by
  cases e with
  | setDescription v =>
      obtain ⟨h1, h2⟩ := h
      exact ⟨h1, h2⟩
  | setUnitPrice v => exact goodItem_recomputeDerived _
  | setNeededQuantity v => exact goodItem_recomputeDerived _
  | setOwnedQuantity v => exact goodItem_recomputeDerived _

theorem getElem?_updateItem (items : List QuoteItem) (i : ℕ) (e : ItemEdit)
    (j : ℕ) :
    (updateItem items i e)[j]? =
      (fun a => if i = j then editStep e a else a) <$> items[j]? := by
  unfold updateItem
  cases hre : editRecomputes e with
  | false =>
      simp only [Bool.false_eq_true, if_false]
      rw [List.getElem?_modify]
      cases items[j]? with
      | none => rfl
      | some a => simp [editStep, hre]
  | true =>
      simp only [if_true]
      rw [List.getElem?_modify, List.getElem?_modify]
      cases items[j]? with
      | none => rfl
      | some a =>
          by_cases hij : i = j
          · simp [hij, editStep, hre]
          · simp [hij]

theorem goodItems_updateItem {l : List QuoteItem}
    (h : ∀ it ∈ l, GoodItem it) (i : ℕ) (e : ItemEdit) :
    ∀ it ∈ updateItem l i e, GoodItem it := by
  intro it hit
  obtain ⟨j, hj⟩ := List.mem_iff_getElem?.1 hit
  rw [getElem?_updateItem] at hj
  cases hl : l[j]? with
  | none => rw [hl] at hj; simp at hj
  | some a =>
      rw [hl] at hj
      simp at hj
      have ha : GoodItem a := h a (List.getElem?_mem hl)
      by_cases hij : i = j
      · rw [if_pos hij] at hj
        subst hj
        exact goodItem_editStep e ha
      · rw [if_neg hij] at hj
        subst hj
        exact ha

theorem reachableItems_good {l : List QuoteItem} (h : ReachableItems l) :
    ∀ it ∈ l, GoodItem it := by
  induction h with
  | nil => intro it hit; simp at hit
  | add _ ih =>
      intro it hit
      unfold addItem at hit
      rcases List.mem_append.1 hit with h1 | h1
      · exact ih it h1
      · rw [List.mem_singleton] at h1
        subst h1
        exact goodItem_newQuoteItem
  | remove i _ ih =>
      intro it hit
      exact ih it (List.eraseIdx_subset _ _ hit)
  | update i e _ ih => exact goodItems_updateItem ih i e

theorem foldl_add_total (l : List QuoteItem) :
    ∀ s : ℚ, l.foldl (fun sum it => sum + it.total) s =
      s + (l.map QuoteItem.total).sum := by
  induction l with
  | nil => intro s; simp
  | cons hd tl ih =>
      intro s
      simp only [List.foldl_cons, List.map_cons, List.sum_cons, ih]
      ring

theorem subtotal_eq_sum (l : List QuoteItem) :
    subtotal l = (l.map QuoteItem.total).sum := by
  simpa [subtotal] using foldl_add_total l 0

theorem subtotal_nonneg {l : List QuoteItem} (h : ∀ it ∈ l, 0 ≤ it.total) :
    0 ≤ subtotal l := by
  rw [subtotal_eq_sum]
  apply List.sum_nonneg
  intro x hx
  obtain ⟨it, hit, rfl⟩ := List.mem_map.1 hx
  exact h it hit

theorem demoItems_reachable : ReachableItems demoItems :=
  ReachableItems.update 0 (.setOwnedQuantity 2)
    (ReachableItems.update 0 (.setNeededQuantity 5)
      (ReachableItems.update 0 (.setUnitPrice 100)
        (ReachableItems.add ReachableItems.nil)))

theorem demoItems_eq :
    demoItems = [{ description := ""
                   unit_price := 100
                   needed_quantity := 5
                   owned_quantity := 2
                   buy_quantity := 3
                   total := 300 }] := by
  norm_num [demoItems, updateItem, addItem, newQuoteItem, applyEdit,
    recomputeDerived, editRecomputes, List.modify_zero_cons, List.modify_nil]

theorem trackPdfDownload_snd (u : UserRec) :
    (trackPdfDownload u).2 =
      if !u.hasActiveSubscription && u.freeDownloadsUsed == 0 then
        incrementFreeDownloads u
      else u := by
  cases hA : isAdminRole u <;> cases hS : u.hasActiveSubscription <;>
    cases hF : u.freeDownloadsUsed == 0 <;>
      simp [trackPdfDownload, requireSubscriptionOrFreeTrial, hA, hS, hF]

/-! ### Claims -/

/-- C1: the claim says an admin request through the gate is always
permitted and never touches freeDownloadsUsed.  The code permits it, but
for an admin without an active subscription whose counter is 0 the handler
of POST /api/track-pdf-download increments the counter to 1 and answers
with the free-trial message, contradicting the admin-bypass intent the
routes themselves express (check-pdf-access reports isFreeTrial false and
freeDownloadsUsed 0 for every admin).  This theorem evaluates the route at
that failing input. -/
theorem trackPdfDownload_unsubscribed_admin_increments :
    trackPdfDownload
        { role := "admin", hasActiveSubscription := false,
          freeDownloadsUsed := 0 } =
      (.success "Free trial used. Subscribe to continue generating PDFs." 1,
       { role := "admin", hasActiveSubscription := false,
         freeDownloadsUsed := 1 }) := by
  decide

/-- C2: a non-admin user with freeDownloadsUsed 0 and no active
subscription gets one successful generation which sets the counter to 1;
the immediately following call is refused with the 402
SUBSCRIPTION_REQUIRED response carrying the current count, and the refusal
leaves the counter at 1. -/
theorem freshUser_first_generation_then_refused (u : UserRec)
    (hadm : isAdminRole u = false)
    (hsub : u.hasActiveSubscription = false)
    (hfree : u.freeDownloadsUsed = 0) :
    (trackPdfDownload u).1 =
      .success "Free trial used. Subscribe to continue generating PDFs." 1 ∧
    (trackPdfDownload u).2.freeDownloadsUsed = 1 ∧
    (trackPdfDownload (trackPdfDownload u).2).1 = .subscriptionRequired 1 ∧
    (trackPdfDownload (trackPdfDownload u).2).2 = (trackPdfDownload u).2 := by
  obtain ⟨role, sub, free⟩ := u
  simp only at hadm hsub hfree
  subst hsub hfree
  have hadm1 : isAdminRole ⟨role, false, 1⟩ = false := hadm
  simp [trackPdfDownload, requireSubscriptionOrFreeTrial,
    incrementFreeDownloads, hadm, hadm1]

theorem freshUser_first_generation_then_refused_witness :
    isAdminRole freshUser = false ∧
    freshUser.hasActiveSubscription = false ∧
    freshUser.freeDownloadsUsed = 0 ∧
    ((trackPdfDownload freshUser).1 =
      .success "Free trial used. Subscribe to continue generating PDFs." 1 ∧
    (trackPdfDownload freshUser).2.freeDownloadsUsed = 1 ∧
    (trackPdfDownload (trackPdfDownload freshUser).2).1 =
      .subscriptionRequired 1 ∧
    (trackPdfDownload (trackPdfDownload freshUser).2).2 =
      (trackPdfDownload freshUser).2) :=
  ⟨by decide, rfl, rfl,
   freshUser_first_generation_then_refused freshUser (by decide) rfl rfl⟩

/-- C3: every item list the editing operations can produce satisfies the
derived-field invariant, buy_quantity = max(0, needed - owned) and is
never negative, total = buy_quantity * unit_price, and the subtotal of the
pricing engine equals the sum of max(0, needed - owned) * price over the
items. -/
theorem reachable_buyQuantity_total_subtotal (l : List QuoteItem)
    (h : ReachableItems l) :
    (∀ it ∈ l,
        it.buy_quantity = max 0 (it.needed_quantity - it.owned_quantity) ∧
        0 ≤ it.buy_quantity ∧
        it.total = (it.buy_quantity : ℚ) * it.unit_price) ∧
    subtotal l =
      (l.map (fun it =>
        ((max 0 (it.needed_quantity - it.owned_quantity) : ℤ) : ℚ) *
          it.unit_price)).sum := by
  have hg := reachableItems_good h
  constructor
  · intro it hit
    obtain ⟨h1, h2⟩ := hg it hit
    refine ⟨h1, ?_, h2⟩
    rw [h1]
    exact le_max_left 0 _
  · rw [subtotal_eq_sum]
    apply congrArg List.sum
    apply List.map_congr_left
    intro it hit
    obtain ⟨h1, h2⟩ := hg it hit
    rw [h2, h1]

theorem reachable_buyQuantity_total_subtotal_witness :
    ReachableItems demoItems ∧
    ((∀ it ∈ demoItems,
        it.buy_quantity = max 0 (it.needed_quantity - it.owned_quantity) ∧
        0 ≤ it.buy_quantity ∧
        it.total = (it.buy_quantity : ℚ) * it.unit_price) ∧
    subtotal demoItems =
      (demoItems.map (fun it =>
        ((max 0 (it.needed_quantity - it.owned_quantity) : ℤ) : ℚ) *
          it.unit_price)).sum) :=
  ⟨demoItems_reachable,
   reachable_buyQuantity_total_subtotal demoItems demoItems_reachable⟩

/-- C4: for every item list the editor can produce whose unit prices are
non-negative, as the data model of the spec requires, and every discount in
the interval 0 to 100, the pricing engine computes
total = subtotal - subtotal * discount / 100 and total is at most the
subtotal. -/
theorem total_discount_formula_and_le (l : List QuoteItem) (d : ℚ)
    (hr : ReachableItems l) (hp : ∀ it ∈ l, 0 ≤ it.unit_price)
    (h0 : 0 ≤ d) (h100 : d ≤ 100) :
    total l d = subtotal l - subtotal l * d / 100 ∧
    total l d ≤ subtotal l := by
  have hst : 0 ≤ subtotal l := by
    apply subtotal_nonneg
    intro it hit
    obtain ⟨h1, h2⟩ := reachableItems_good hr it hit
    rw [h2]
    apply mul_nonneg _ (hp it hit)
    rw [h1]
    exact_mod_cast le_max_left 0 _
  refine ⟨rfl, ?_⟩
  have hda : 0 ≤ subtotal l * d / 100 :=
    div_nonneg (mul_nonneg hst h0) (by norm_num)
  calc total l d = subtotal l - subtotal l * d / 100 := rfl
    _ ≤ subtotal l := by linarith

theorem total_discount_formula_and_le_witness :
    ReachableItems demoItems ∧
    (∀ it ∈ demoItems, 0 ≤ it.unit_price) ∧
    (0 : ℚ) ≤ 10 ∧ (10 : ℚ) ≤ 100 ∧
    (total demoItems 10 = subtotal demoItems - subtotal demoItems * 10 / 100 ∧
     total demoItems 10 ≤ subtotal demoItems) :=
  ⟨demoItems_reachable,
   by rw [demoItems_eq]; intro it hit; rw [List.mem_singleton] at hit;
      subst hit; norm_num,
   by norm_num, by norm_num,
   total_discount_formula_and_le demoItems 10 demoItems_reachable
     (by rw [demoItems_eq]; intro it hit; rw [List.mem_singleton] at hit;
         subst hit; norm_num)
     (by norm_num) (by norm_num)⟩

/-- C5, counterexample: the claim says freeDownloadsUsed only ever
increases, by exactly 1, and only on a successful non-subscribed
generation.  From the reachable state with counter 1 (the fresh user after
its free generation), PUT /api/admin/users/:id invoked by an admin with
body freeDownloadsUsed 0 sets the counter back to 0: a decrement. -/
theorem freeDownloads_admin_route_decrements_cex :
    (trackPdfDownload freshUser).2.freeDownloadsUsed = 1 ∧
    adminUpdateUser
        (some { role := "admin", hasActiveSubscription := true,
                freeDownloadsUsed := 0 })
        (trackPdfDownload freshUser).2
        { role := none, hasActiveSubscription := none,
          freeDownloadsUsed := some 0 } =
      .ok { role := "user", hasActiveSubscription := false,
            freeDownloadsUsed := 0 } := by
  decide

/-- C5, amended: along the generation pipeline the counter is monotone and
moves by exactly 1, only on a successful generation by a user with no
active subscription and counter 0; updateSubscriptionStatus never touches
it; the admin user-update route, however, can write any value into it,
decrements included (see the counterexample). -/
theorem freeDownloads_counter_evolution (u : UserRec) (b : Bool) :
    (trackPdfDownload u).2.freeDownloadsUsed =
      (if !u.hasActiveSubscription && u.freeDownloadsUsed == 0 then
        u.freeDownloadsUsed + 1
      else u.freeDownloadsUsed) ∧
    u.freeDownloadsUsed ≤ (trackPdfDownload u).2.freeDownloadsUsed ∧
    (updateSubscriptionStatus u b).freeDownloadsUsed =
      u.freeDownloadsUsed := by
  refine ⟨?_, ?_, rfl⟩
  · rw [trackPdfDownload_snd]
    split <;> simp [incrementFreeDownloads]
  · rw [trackPdfDownload_snd]
    split
    · exact Nat.le_succ _
    · exact le_refl _

/-- C6, counterexample: the claim says discountAmount is computed with the
discount clamped into 0 to 100.  On the one-item list with subtotal 300
and discount 200 the code yields 600 while the clamped formula of the spec
yields 300. -/
theorem discountAmount_unclamped_cex :
    discountAmount demoItems 200 = 600 ∧
    discountAmountClamped demoItems 200 = 300 ∧
    discountAmount demoItems 200 ≠ discountAmountClamped demoItems 200 := by
  rw [demoItems_eq]
  norm_num [discountAmount, discountAmountClamped, clampQ, subtotal]

/-- C6, amended: discountAmount = subtotal * discount / 100 with no
clamping at all; the code agrees with the clamped formula of the spec
exactly when the discount already lies in the interval 0 to 100. -/
theorem discountAmount_formula_and_agreement (l : List QuoteItem) (d : ℚ) :
    discountAmount l d = subtotal l * d / 100 ∧
    (0 ≤ d → d ≤ 100 → discountAmount l d = discountAmountClamped l d) := by
  refine ⟨rfl, fun h0 h100 => ?_⟩
  unfold discountAmount discountAmountClamped clampQ
  rw [min_eq_left h100, max_eq_right h0]

theorem discountAmount_formula_and_agreement_witness :
    discountAmount demoItems 10 = subtotal demoItems * 10 / 100 ∧
    (0 : ℚ) ≤ 10 ∧ (10 : ℚ) ≤ 100 ∧
    discountAmount demoItems 10 = discountAmountClamped demoItems 10 :=
  ⟨(discountAmount_formula_and_agreement demoItems 10).1,
   by norm_num, by norm_num,
   (discountAmount_formula_and_agreement demoItems 10).2
     (by norm_num) (by norm_num)⟩

/-- C7: every variant string other than variant_b, variant_c, variant_d and
variant_e falls through to the default branch of getTemplateColors and
yields the classic palette, the same object the known value variant_a
yields; as a total Lean function the selection raises nothing. -/
theorem getTemplateColors_unknown_falls_back (v : String)
    (h1 : v ≠ "variant_b") (h2 : v ≠ "variant_c")
    (h3 : v ≠ "variant_d") (h4 : v ≠ "variant_e") :
    getTemplateColors v = getTemplateColors "variant_a" := by
  simp [getTemplateColors, h1, h2, h3, h4]

theorem getTemplateColors_unknown_falls_back_witness :
    "classic" ≠ "variant_b" ∧ "classic" ≠ "variant_c" ∧
    "classic" ≠ "variant_d" ∧ "classic" ≠ "variant_e" ∧
    getTemplateColors "classic" = getTemplateColors "variant_a" :=
  ⟨by decide, by decide, by decide, by decide,
   getTemplateColors_unknown_falls_back "classic"
     (by decide) (by decide) (by decide) (by decide)⟩

/-- C8, counterexample: the claim says the document renderer, on an empty
items list with discount 0, emits an items table containing a placeholder
row.  The totals are indeed 0, but the items table body of
generateHTMLTemplate maps over the items and joins, so for the empty list
it holds no row at all and in particular no placeholder text. -/
theorem renderer_empty_items_no_placeholder_cex :
    subtotal [] = 0 ∧ total [] 0 = 0 ∧
    rendererItemsRows [] = [] ∧
    rendererItemsTbody [] = "" ∧
    containsSubstr (rendererItemsTbody []) "Nenhum item" = false := by
    refine ⟨rfl, ?_, rfl, rfl, by decide⟩
    norm_num [total, discountAmount, subtotal]

/-- C8, amended: on an empty items list with discount 0 the subtotal and
total are 0 and the rendered document holds an items table with no rows;
the placeholder row for the empty list is emitted by the items-editing UI
component, not by the document renderer. -/
theorem renderer_empty_items_behaviour :
    subtotal [] = 0 ∧ total [] 0 = 0 ∧
    rendererItemsRows [] = [] ∧
    itemsListBody [] = [.placeholder itemsListPlaceholderText] := by
  refine ⟨rfl, ?_, rfl, rfl⟩
  norm_num [total, discountAmount, subtotal]

/-- C9: the entitlement gate and check-pdf-access lowercase the role before
comparing with admin, while the quote-ownership check compares the role
exactly; a user whose role is the string Admin with a capital A is treated
as an admin by the gate, by check-pdf-access and by track-pdf-download,
yet receives 403 from GET /api/quotes/:id on a quote of another user. -/
theorem role_case_sensitivity_divergence (hasSub : Bool) (free : ℕ)
    (q : QuoteRec) (email : String) (hq : q.createdBy ≠ email) :
    requireSubscriptionOrFreeTrial
        (.ok (some { role := "Admin", hasActiveSubscription := hasSub,
                     freeDownloadsUsed := free })) = .allow ∧
    checkPdfAccess
        (.ok (some { role := "Admin", hasActiveSubscription := hasSub,
                     freeDownloadsUsed := free })) =
      .ok ⟨true, true, 0, false⟩ ∧
    (trackPdfDownload { role := "Admin", hasActiveSubscription := hasSub,
                        freeDownloadsUsed := free }).1.isPermitted = true ∧
    getQuoteById (some q)
        (some { role := "Admin", hasActiveSubscription := hasSub,
                freeDownloadsUsed := free }) email = .forbidden := by
  have hadm : isAdminRole
      { role := "Admin", hasActiveSubscription := hasSub,
        freeDownloadsUsed := free } = true := by
    show (toLowerStr "Admin" == "admin") = true
    decide
  refine ⟨?_, ?_, ?_, ?_⟩
  · simp [requireSubscriptionOrFreeTrial, hadm]
  · simp [checkPdfAccess, hadm]
  · cases h : (!hasSub && free == 0) <;>
      simp [trackPdfDownload, requireSubscriptionOrFreeTrial, hadm, h,
        TrackOutcome.isPermitted]
  · simp [getQuoteById, roleIsAdminExact, bne_iff_ne, hq]

theorem role_case_sensitivity_divergence_witness :
    ({ createdBy := "alice@example.com" } : QuoteRec).createdBy ≠
      "bob@example.com" ∧
    (requireSubscriptionOrFreeTrial
        (.ok (some { role := "Admin", hasActiveSubscription := false,
                     freeDownloadsUsed := 5 })) = .allow ∧
    checkPdfAccess
        (.ok (some { role := "Admin", hasActiveSubscription := false,
                     freeDownloadsUsed := 5 })) =
      .ok ⟨true, true, 0, false⟩ ∧
    (trackPdfDownload { role := "Admin", hasActiveSubscription := false,
                        freeDownloadsUsed := 5 }).1.isPermitted = true ∧
    getQuoteById (some { createdBy := "alice@example.com" })
        (some { role := "Admin", hasActiveSubscription := false,
                freeDownloadsUsed := 5 }) "bob@example.com" = .forbidden) :=
  ⟨by decide,
   role_case_sensitivity_divergence false 5
     { createdBy := "alice@example.com" } "bob@example.com" (by decide)⟩

/-- C10: when the user lookup throws an error whose message contains the
text DATABASE_URL is not set, the gate calls next() and so permits the
generation, and GET /api/check-pdf-access answers canGenerate true,
independently of who requested. -/
theorem db_unavailable_fails_open (msg : String)
    (h : containsSubstr msg "DATABASE_URL is not set" = true) :
    requireSubscriptionOrFreeTrial (.error msg) = .allow ∧
    checkPdfAccess (.error msg) = .ok ⟨true, true, 0, false⟩ := by
  constructor <;> simp [requireSubscriptionOrFreeTrial, checkPdfAccess, h]

theorem db_unavailable_fails_open_witness :
    containsSubstr "Error: DATABASE_URL is not set" "DATABASE_URL is not set"
      = true ∧
    (requireSubscriptionOrFreeTrial
        (.error "Error: DATABASE_URL is not set") = .allow ∧
    checkPdfAccess (.error "Error: DATABASE_URL is not set") =
      .ok ⟨true, true, 0, false⟩) :=
  ⟨by decide,
   db_unavailable_fails_open "Error: DATABASE_URL is not set" (by decide)⟩

end QuoteMaster

